import Mathlib

/-!
Shallow embedding of the `devkraft_rag` ingestion / storage / attribution core
(`app/services/ingestion.py`, `app/core/storage.py`, `app/core/embeddings.py`,
`app/core/llm.py`, `app/services/rag.py`) and proofs of the specification
claims about it.

External effects (Qdrant scroll/upsert, Gemini and local embedding endpoints,
the filesystem) are modelled by an explicit environment `Env` of outcome
oracles; exceptions raised by a backend call are modelled by the
corresponding `Fails` flag / `Except.error` result, and the `try/except`
blocks of the source become branches on those oracles.
-/

namespace RagSpec

/-- Embedding vectors: fixed-length float arrays, modelled as rational lists
(the stored vector values are opaque to every claim). -/
abbrev Vec := List ℚ

/-- Chunk metadata dict built in `IngestionService.ingest_document`
(`{**base_metadata, "page": …, "header": …, "chunkno": i + 1}` with
`base_metadata = {"filename": path.name}`). -/
structure ChunkMeta where
  filename : String
  page : Nat
  header : String
  chunkno : Nat
deriving DecidableEq, Repr

/-- The empty metadata dict `{}` used when no metadata list is supplied. -/
def emptyMeta : ChunkMeta := { filename := "", page := 0, header := "", chunkno := 0 }

/-- Qdrant point payload `{"text": …, "md5": …, "metadata": …}` as built in
`QdrantStorage.store_embeddings_cloud` / `store_embeddings_docker`. -/
structure Payload where
  text : String
  md5 : String
  meta : ChunkMeta
deriving DecidableEq, Repr

/-- A stored point `PointStruct(id, vector, payload)`; `str(uuid7())` ids are
modelled by a monotonically increasing counter (time-sortable ids). -/
structure Point where
  id : Nat
  vector : Vec
  payload : Payload
deriving DecidableEq, Repr

/-- The three physical collections owned by `QdrantStorage`:
`cloudMain` is `settings.qdrant_cloud_collection` on the cloud client,
`cloudDocker` is `settings.qdrant_docker_collection` on the cloud client
(the durable replica of the docker tier), and `dockerLocal` is
`settings.qdrant_docker_collection` on the docker client.  `nextId` models
the uuid7 stream. -/
structure StoreState where
  cloudMain : List Point
  cloudDocker : List Point
  dockerLocal : List Point
  nextId : Nat
deriving DecidableEq, Repr

/-- A collection name resolved through the cloud client
(`check_document_exists` always scrolls `self.cloud_client`, whichever
collection name it is given). -/
inductive CloudCollection
  | main
  | docker
deriving DecidableEq, Repr

/-- Load failure of `DocumentProcessor.load_document` as seen by
`ingest_document`: `ValueError` (empty content) versus any other exception. -/
inductive LoadErr
  | emptyVal (msg : String)
  | other (msg : String)
deriving DecidableEq, Repr

/-- Per-page metadata entries returned by `load_document` alongside chunks. -/
structure PageMeta where
  page : Nat
  header : String
deriving DecidableEq, Repr

/-- An ingestion request: the file (folder, stem, extension), its content
fingerprint (`calculate_md5` is deterministic in the bytes, so identical
bytes are modelled by an identical `md5` field), and what
`load_document` would produce for it. -/
structure Document where
  md5 : String
  folder : String
  stem : String
  ext : String
  loadErr : Option LoadErr
  chunks : List String
  pageMetas : List PageMeta
deriving DecidableEq, Repr

/-- Outcome oracles for all external calls made during one ingestion. -/
structure Env where
  /-- `cloud_client.scroll` on the main cloud collection raises. -/
  scrollMainFails : Bool
  /-- `cloud_client.scroll` on the cloud docker (replica) collection raises. -/
  scrollDockerFails : Bool
  /-- `self.docker_available` (docker client initialised successfully). -/
  dockerAvailable : Bool
  /-- `docker_client.upsert` raises. -/
  dockerUpsertFails : Bool
  /-- `cloud_client.upsert` on the main cloud collection raises. -/
  cloudMainUpsertFails : Bool
  /-- `cloud_client.upsert` on the cloud docker (replica) collection raises. -/
  cloudDockerUpsertFails : Bool
  /-- Result of `self.gemini_embedding.embed_documents(chunks)`. -/
  geminiEmbed : List String → Except String (List Vec)
  /-- Result of `self.local_embedding.embed_documents(chunks)`. -/
  localEmbed : List String → Except String (List Vec)
  /-- `shutil.move` raises (caught inside `_move_file`). -/
  moveFails : Bool

/-- Whether the scroll call on the given cloud-client collection raises. -/
def Env.scrollFails (env : Env) : CloudCollection → Bool
  | .main => env.scrollMainFails
  | .docker => env.scrollDockerFails

/-- Contents of the given cloud-client collection. -/
def StoreState.cloudColl (st : StoreState) : CloudCollection → List Point
  | .main => st.cloudMain
  | .docker => st.cloudDocker

/-- The scroll-with-md5-filter used by `check_document_exists`:
any stored point whose payload `md5` equals the query. -/
def scrollHasMd5 (pts : List Point) (md5 : String) : Bool :=
  pts.any (fun p => p.payload.md5 == md5)

/-- `QdrantStorage.check_document_exists`: scroll the cloud client for a
point with this md5; the surrounding `try/except` returns `False` on any
exception. -/
def check_document_exists (env : Env) (st : StoreState) (md5 : String)
    (col : CloudCollection) : Bool :=
  if env.scrollFails col then false
  else scrollHasMd5 (st.cloudColl col) md5

/-- Point construction loop shared by `store_embeddings_cloud` and
`store_embeddings_docker`: one point per `zip(embeddings, texts)` entry,
payload `{"text": text, "md5": md5_hash, "metadata": metadata[i] if metadata
else {}}`, fresh uuid7 id each.  (Call sites pass metadata of the same
length as the texts; indexing is totalised with `getD`.) -/
def mkPoints (st : StoreState) (vecs : List Vec) (texts : List String)
    (metas : List ChunkMeta) (md5 : String) : List Point × StoreState :=
  let pairs := vecs.zip texts
  let points := (List.range pairs.length).zip pairs |>.map fun ip =>
    { id := st.nextId + ip.1
      vector := ip.2.1
      payload :=
        { text := ip.2.2
          md5 := md5
          meta := if metas.isEmpty then emptyMeta else metas.getD ip.1 emptyMeta } }
  (points, { st with nextId := st.nextId + pairs.length })

/-- `QdrantStorage.store_embeddings_cloud`: skip (returning `False`) when the
md5 is already present in the main cloud collection; build the points; upsert
into the main cloud collection; any exception is caught and yields `False`. -/
def store_embeddings_cloud (env : Env) (st : StoreState) (vecs : List Vec)
    (texts : List String) (metas : List ChunkMeta) (md5 : String) :
    Bool × StoreState :=
  if !md5.isEmpty && check_document_exists env st md5 .main then
    (false, st)
  else
    let pst := mkPoints st vecs texts metas md5
    if env.cloudMainUpsertFails then (false, pst.2)
    else (true, { pst.2 with cloudMain := pst.2.cloudMain ++ pst.1 })

/-- Result of `store_embeddings_docker`, recording which backends were
actually written and with which point list. -/
structure DockerStoreResult where
  ok : Bool
  st : StoreState
  dockerWritten : Option (List Point)
  replicaWritten : Option (List Point)

/-- `QdrantStorage.store_embeddings_docker`: skip when the md5 is already in
the cloud docker collection; build the point list once; try the docker
client first (only if available, exceptions logged not raised); always
additionally upsert the same points into the cloud docker collection
(exceptions logged not raised); return `docker_success or cloud_success`. -/
def store_embeddings_docker (env : Env) (st : StoreState) (vecs : List Vec)
    (texts : List String) (metas : List ChunkMeta) (md5 : String) :
    DockerStoreResult :=
  if !md5.isEmpty && check_document_exists env st md5 .docker then
    { ok := false, st := st, dockerWritten := none, replicaWritten := none }
  else
    let pst := mkPoints st vecs texts metas md5
    let points := pst.1
    let dockerOk := env.dockerAvailable && !env.dockerUpsertFails
    let st2 :=
      if dockerOk then { pst.2 with dockerLocal := pst.2.dockerLocal ++ points }
      else pst.2
    let replicaOk := !env.cloudDockerUpsertFails
    let st3 :=
      if replicaOk then { st2 with cloudDocker := st2.cloudDocker ++ points }
      else st2
    { ok := dockerOk || replicaOk
      st := st3
      dockerWritten := if dockerOk then some points else none
      replicaWritten := if replicaOk then some points else none }

/-! Filesystem model and `_move_file`. -/

/-- Folder constants from `app/config.py`. -/
def generateEmbeddingsFolder : String := "generate_embeddings"

/-- `settings.stored_folder`. -/
def storedFolder : String := "generate_embeddings/stored"

/-- `settings.stored_docker_only_folder`. -/
def storedDockerOnlyFolder : String := "generate_embeddings/stored_in_q_docker_only"

/-- `settings.stored_cloud_only_folder`. -/
def storedCloudOnlyFolder : String := "generate_embeddings/stored_in_q_cloud_only"

/-- Filesystem contents: the set of existing files as (folder, name) pairs. -/
structure FS where
  files : List (String × String)
deriving DecidableEq, Repr

/-- `Path.exists` for `destination_folder / name`. -/
def fileExists (fs : FS) (folder name : String) : Bool :=
  fs.files.contains (folder, name)

/-- `f"{stem}_{counter}{suffix}"` rename candidates of `_move_file`. -/
def candidateName (stem ext : String) (k : Nat) : String :=
  stem ++ "_" ++ toString k ++ ext

/-- `IngestionService._move_file`: move `folder/stem++ext` into `destFolder`,
renaming to `stem_k ++ ext` for the first free `k ≥ 1` when the destination
name already exists (the `while dest_path.exists()` loop); a raising
`shutil.move` (or a missing source) is caught and leaves the filesystem
unchanged.  The candidate search is bounded by `|files| + 1`, which by
pigeonhole always contains a free name; the fallback arm is unreachable. -/
def moveFile (env : Env) (fs : FS) (srcFolder stem ext destFolder : String) : FS :=
  let base := stem ++ ext
  if env.moveFails || !(fileExists fs srcFolder base) then fs
  else
    let chosen :=
      if !(fileExists fs destFolder base) then base
      else
        match (List.range (fs.files.length + 1)).find?
            (fun k => !(fileExists fs destFolder (candidateName stem ext (k + 1)))) with
        | some k => candidateName stem ext (k + 1)
        | none => candidateName stem ext (fs.files.length + 1)
    { files := (destFolder, chosen) :: fs.files.filter (fun p => p ≠ (srcFolder, base)) }

/-- `IngestionService._determine_destination`. -/
def determineDestination : Bool → Bool → String
  | true, true => storedFolder
  | true, false => storedCloudOnlyFolder
  | false, true => storedDockerOnlyFolder
  | false, false => generateEmbeddingsFolder

/-! Error-message assembly of `ingest_document`'s both-failed branch. -/

/-- List-level "starts with" on characters. -/
def startsWithL : List Char → List Char → Bool
  | [], _ => true
  | _ :: _, [] => false
  | p :: ps, c :: cs => p == c && startsWithL ps cs

/-- List-level substring containment (Python `in` on strings). -/
def hasSubL (pat : List Char) : List Char → Bool
  | [] => startsWithL pat []
  | c :: cs => startsWithL pat (c :: cs) || hasSubL pat cs

/-- Python `pat in s` for strings. -/
def containsSub (s pat : String) : Bool :=
  hasSubL pat.toList s.toList

/-- Classification of a cloud-side error message (`ingest_document`,
both-failed branch). -/
def classifyCloudError (e : String) : String :=
  if containsSub e "INVALID_ARGUMENT" && containsSub e.toLower "empty" then
    "cloud embedding error: batch request was empty"
  else if containsSub e "INVALID_ARGUMENT" && containsSub e "100" then
    "cloud embedding error: exceeded batch size limit"
  else
    "cloud error: " ++ e.take 100

/-- Classification of a docker-side error message (`ingest_document`,
both-failed branch). -/
def classifyDockerError (e : String) : String :=
  if containsSub e "402" || containsSub e "Payment Required" then
    "docker error: HuggingFace quota exceeded"
  else
    "docker error: " ++ e.take 100

/-- The chunk metadata list built in `ingest_document`
(`{**base_metadata, "page", "header", "chunkno": i + 1}`). -/
def buildChunkMetadata (doc : Document) : List ChunkMeta :=
  (List.range doc.pageMetas.length).zip doc.pageMetas |>.map fun ip =>
    { filename := doc.stem ++ doc.ext
      page := ip.2.page
      header := ip.2.header
      chunkno := ip.1 + 1 }

/-- Result of one `ingest_document` call. -/
structure IngestResult where
  success : Bool
  message : String
  st : StoreState
  fs : FS
deriving DecidableEq, Repr

/-- `IngestionService.ingest_document`, straight-line transcription:
fingerprint, duplicate checks through the cloud client on both collection
names, load/chunk validation, the two independent store attempts (an
`Except.error` from an embedder is the caught exception that fills
`cloud_error` / `docker_error`; the store functions themselves never raise),
the file move, and message assembly. -/
def ingest_document (env : Env) (st : StoreState) (fs : FS) (doc : Document) :
    IngestResult :=
  let md5 := doc.md5
  let cloudExists := check_document_exists env st md5 .main
  let dockerExists := check_document_exists env st md5 .docker
  if cloudExists || dockerExists then
    if cloudExists && dockerExists then
      { success := false
        message := "duplicate: document already exists in both cloud and docker storage"
        st := st, fs := moveFile env fs doc.folder doc.stem doc.ext storedFolder }
    else if cloudExists then
      { success := false
        message := "duplicate: document already exists in cloud storage"
        st := st, fs := moveFile env fs doc.folder doc.stem doc.ext storedCloudOnlyFolder }
    else
      { success := false
        message := "duplicate: document already exists in docker storage"
        st := st, fs := moveFile env fs doc.folder doc.stem doc.ext storedDockerOnlyFolder }
  else
    match doc.loadErr with
    | some (.emptyVal m) =>
        { success := false, message := "empty content: " ++ m, st := st, fs := fs }
    | some (.other m) =>
        { success := false, message := "loading error: " ++ m, st := st, fs := fs }
    | none =>
      if doc.chunks.isEmpty then
        { success := false
          message := "empty content: document resulted in 0 chunks after processing"
          st := st, fs := fs }
      else
        let metas := buildChunkMetadata doc
        let cloudAttempt :=
          match env.geminiEmbed doc.chunks with
          | .error e => (false, some e, st)
          | .ok vecs =>
            let r := store_embeddings_cloud env st vecs doc.chunks metas md5
            (r.1, none, r.2)
        let cloudSuccess := cloudAttempt.1
        let cloudErr := cloudAttempt.2.1
        let st1 := cloudAttempt.2.2
        let dockerAttempt :=
          match env.localEmbed doc.chunks with
          | .error e => (false, some e, st1)
          | .ok vecs =>
            let r := store_embeddings_docker env st1 vecs doc.chunks metas md5
            (r.ok, none, r.st)
        let dockerSuccess := dockerAttempt.1
        let dockerErr := dockerAttempt.2.1
        let st2 := dockerAttempt.2.2
        let fs' := moveFile env fs doc.folder doc.stem doc.ext
          (determineDestination cloudSuccess dockerSuccess)
        if cloudSuccess && dockerSuccess then
          { success := true, message := "✅Success: ingested to both cloud and docker"
            st := st2, fs := fs' }
        else if cloudSuccess then
          { success := true, message := "✅Success: ingested to cloud only"
            st := st2, fs := fs' }
        else if dockerSuccess then
          { success := true
            message := "partial Success: ingested to docker only" ++
              (match cloudErr with
               | some e => " (cloud failed: " ++ e.take 100 ++ ")"
               | none => "")
            st := st2, fs := fs' }
        else
          let errors :=
            (match cloudErr with | some e => [classifyCloudError e] | none => []) ++
            (match dockerErr with | some e => [classifyDockerError e] | none => [])
          { success := false
            message :=
              if errors.isEmpty then "failed: unknown error"
              else "failed: " ++ String.intercalate "; " errors
            st := st2, fs := fs' }

/-! ## Embedding providers (`app/core/embeddings.py`) -/

/-- One observable event of `GeminiEmbedding.embed_documents`: an
`embed_content` API call (batch number, key used, batch size) or a
`time.sleep` cooldown. -/
inductive GemEvent
  | call (batchNum : Nat) (key : Nat) (size : Nat)
  | wait (seconds : Nat)
deriving DecidableEq, Repr

/-- The `for i in range(0, len(texts), BATCH_SIZE)` loop of
`GeminiEmbedding.embed_documents` with `BATCH_SIZE = 49`: process a batch of
at most 49 texts, alternate keys per batch number when a second key is
configured, and sleep 60s between batches (with rotation: only after
even-numbered batches; without: after every non-final batch).  `net key
batch` is the API-call oracle; an `Except.error` propagates (the whole
method re-raises).  `fuel` bounds the recursion; the loop consumes at least
one text per iteration, so `fuel = texts.length` is always sufficient and
the fuel-exhaustion arm is unreachable at the call site below. -/
def gemLoop (net : Nat → List String → Except String (List Vec)) (k2 : Bool) :
    Nat → Nat → List String → Except String (List Vec) × List GemEvent
  | 0, _, _ => (.ok [], [])
  | fuel + 1, batchNum, remaining =>
    if remaining.isEmpty then (.ok [], [])
    else
      let batch := remaining.take 49
      let key := if k2 && batchNum % 2 == 0 then 2 else 1
      match net key batch with
      | .error e => (.error e, [.call batchNum key batch.length])
      | .ok vs =>
        let rest := remaining.drop 49
        let waitEvs : List GemEvent :=
          if !rest.isEmpty && (if k2 then batchNum % 2 == 0 else true) then
            [.wait 60]
          else []
        let r := gemLoop net k2 fuel (batchNum + 1) rest
        ((r.1.map fun tail => vs ++ tail), .call batchNum key batch.length :: (waitEvs ++ r.2))

/-- `GeminiEmbedding.embed_documents`: reject an empty batch with
`ValueError("texts list cannot be empty")` before any API call, otherwise
run the batching loop. -/
def geminiEmbedDocuments (net : Nat → List String → Except String (List Vec))
    (hasSecondKey : Bool) (texts : List String) :
    Except String (List Vec) × List GemEvent :=
  if texts.isEmpty then (.error "texts list cannot be empty", [])
  else gemLoop net hasSecondKey texts.length 1 texts

/-- One observable network event of `LocalEmbedding.embed_documents`: a call
to the LM Studio endpoint or to the HuggingFace endpoint, with the text. -/
inductive LocalEvent
  | lmCall (text : String)
  | hfCall (text : String)
deriving DecidableEq, Repr

/-- The per-text loop of `LocalEmbedding.embed_documents`: with the fallback
flag set, call HuggingFace (errors propagate); otherwise try LM Studio and
on any failure flip the permanent fallback flag and retry the same text on
HuggingFace.  Both endpoint oracles return the final (normalised) vector.
Returns the result, the final fallback flag, and the network-call trace. -/
def localEmbedLoop (lm hf : String → Except String Vec) :
    Bool → List String → Except String (List Vec) × Bool × List LocalEvent
  | fb, [] => (.ok [], fb, [])
  | fb, t :: ts =>
    if fb then
      match hf t with
      | .error e => (.error e, fb, [.hfCall t])
      | .ok v =>
        let r := localEmbedLoop lm hf fb ts
        ((r.1.map fun tail => v :: tail), r.2.1, .hfCall t :: r.2.2)
    else
      match lm t with
      | .ok v =>
        let r := localEmbedLoop lm hf false ts
        ((r.1.map fun tail => v :: tail), r.2.1, .lmCall t :: r.2.2)
      | .error _ =>
        match hf t with
        | .error e => (.error e, true, [.lmCall t, .hfCall t])
        | .ok v =>
          let r := localEmbedLoop lm hf true ts
          ((r.1.map fun tail => v :: tail), r.2.1, .lmCall t :: .hfCall t :: r.2.2)

/-- `LocalEmbedding.embed_documents`: iterate the texts (there is no
empty-batch precondition check — an empty list simply produces an empty
embedding list with no network call). -/
def localEmbedDocuments (lm hf : String → Except String Vec)
    (useFallback : Bool) (texts : List String) :
    Except String (List Vec) × Bool × List LocalEvent :=
  localEmbedLoop lm hf useFallback texts

/-- `LocalEmbedding._normalize_embedding`: float arithmetic idealised over
the reals.  `np.linalg.norm` is the Euclidean norm; divide componentwise
when `norm > 0`, otherwise return the embedding unchanged. -/
noncomputable def normL2 (v : List ℝ) : ℝ :=
  Real.sqrt ((v.map fun x => x * x).sum)

/-- `_normalize_embedding` itself. -/
noncomputable def normalizeEmbedding (v : List ℝ) : List ℝ :=
  let n := normL2 v
  if 0 < n then v.map fun x => x / n
  else v

/-! ## Retrieval / attribution engine (`app/services/rag.py`, `app/core/llm.py`) -/

/-- One search hit as returned by `QdrantStorage.search_cloud` /
`search_docker` (`{"text", "metadata", "md5", "score", "id"}`); the payload
metadata dict is modelled by the closed `ChunkMeta` structure. -/
structure SearchResult where
  text : String
  metadata : ChunkMeta
  md5 : String
  score : ℚ
  id : Nat
deriving DecidableEq, Repr

/-- A source-attribution record as built by `RAGService._extract_sources`. -/
structure Source where
  header : String
  page : Nat
  filename : String
  text : String
  chunkno : Nat
deriving DecidableEq, Repr

/-- The source dict built for one in-range index (body of the loop in
`_extract_sources`). -/
def mkSource (r : SearchResult) : Source :=
  { header := r.metadata.header
    page := r.metadata.page
    filename := r.metadata.filename
    text := r.text
    chunkno := r.metadata.chunkno }

/-- `RAGService._extract_sources`: when no indices were declared, fall back
to `range(1, min(4, len(search_results) + 1))`; take the first 3 declared
indices; keep those with `1 <= idx <= len(search_results)` and map each back
to the (idx-1)-th hit. -/
def extractSources (searchResults : List SearchResult) (usedIndices : List Nat) :
    List Source :=
  let used :=
    if usedIndices.isEmpty then
      List.range' 1 (min 3 searchResults.length)
    else usedIndices
  (used.take 3).filterMap fun idx =>
    if 1 ≤ idx ∧ idx ≤ searchResults.length then
      (searchResults.get? (idx - 1)).map mkSource
    else none

/-- `GeminiLLM._extract_source_indices`: find `SOURCES:` followed by a run of
digits/commas/whitespace, extract all numbers, keep those with
`1 <= n <= 4`.  Modelled at the already-extracted-number level: the claims
only use the declared index list. -/
def filterSourceIndices (numbers : List Nat) : List Nat :=
  numbers.filter fun n => 1 ≤ n && n ≤ 4

/-! ### Trailer removal (`_remove_sources_line`)

`re.sub(r"\n*SOURCES:\s*[0-9,\s]+\s*$", "", response, flags=re.IGNORECASE)`
followed by `.strip()`.  The same regex appears verbatim in
`GeminiLLM._remove_sources_line`, `LocalLLM._remove_sources_line` and
`RAGService._remove_sources_line_from_text`; one model covers all three.

The matcher is transcribed as follows.  Python whitespace `\s` (ASCII) and
the class `[0-9,\s]`: -/

/-- ASCII `\s` of Python `re`. -/
def isSpaceChar (c : Char) : Bool :=
  c == ' ' || c == '\t' || c == '\n' || c == '\r' || c == '\x0b' || c == '\x0c'

/-- The character class `[0-9,\s]`. -/
def isClassChar (c : Char) : Bool :=
  c.isDigit || c == ',' || isSpaceChar c

/-- Python `$` without `re.MULTILINE`: matches at the end of the string, or
just before a trailing newline. -/
def dollarAt (l : List Char) (j : Nat) : Bool :=
  j == l.length || (j + 1 == l.length && l[j]? == some '\n')

/-- The tail `\s*[0-9,\s]+\s*$` of the pattern, applied to the text after the
literal `SOURCES:`.  Because `\s` is contained in `[0-9,\s]`, the three
consecutive class runs are one nonempty run over `[0-9,\s]`: some consumed
length `j ≥ 1` whose characters all lie in the class, ending where `$`
matches. -/
def sourcesTailMatch (rest : List Char) : Bool :=
  (List.range (rest.length + 1)).any fun j =>
    decide (1 ≤ j) && (rest.take j).all isClassChar && dollarAt rest j

/-- Case-insensitive check that `l` starts with the literal `SOURCES:` (the
`re.IGNORECASE` flag applied to the literal part of the pattern; `:` has no
case). -/
def startsWithSourcesCI : List Char → Bool
  | c0 :: c1 :: c2 :: c3 :: c4 :: c5 :: c6 :: c7 :: _ =>
    (c0 == 'S' || c0 == 's') && (c1 == 'O' || c1 == 'o') && (c2 == 'U' || c2 == 'u') &&
    (c3 == 'R' || c3 == 'r') && (c4 == 'C' || c4 == 'c') && (c5 == 'E' || c5 == 'e') &&
    (c6 == 'S' || c6 == 's') && (c7 == ':')
  | _ => false

/-- Whether the whole pattern `\n*SOURCES:\s*[0-9,\s]+\s*$` matches at the
start of `cs`: the greedy `\n*` consumes the leading newline run (the
literal cannot begin with a newline, so no backtracking arises), then the
literal, then the tail. -/
def headerMatch0 (cs : List Char) : Bool :=
  let t2 := cs.dropWhile (fun c => c == '\n')
  startsWithSourcesCI t2 && sourcesTailMatch (t2.drop 8)

/-- Leftmost-match deletion of `re.sub` for this end-anchored pattern: scan
positions left to right; at the first position where the pattern matches,
the match necessarily extends to the end of the string (greedy `\s*`
backtracks only as far as `$` allows, and `\n` itself is in the class), so
the substitution keeps exactly the prefix before the match. -/
def subSources : List Char → List Char
  | [] => []
  | c :: t => if headerMatch0 (c :: t) then [] else c :: subSources t

/-- Python `str.strip()` on ASCII whitespace. -/
def stripL (l : List Char) : List Char :=
  ((l.dropWhile isSpaceChar).reverse.dropWhile isSpaceChar).reverse

/-- `_remove_sources_line` on character lists: regex substitution, then
`.strip()`. -/
def removeSourcesLineL (cs : List Char) : List Char :=
  stripL (subSources cs)

/-- `_remove_sources_line` / `_remove_sources_line_from_text` on strings. -/
def removeSourcesLine (s : String) : String :=
  ⟨removeSourcesLineL s.toList⟩

/-- Executable check that every SOURCES-shaped occurrence in the text is
followed by further non-matching content: no suffix of `s` begins with the
case-insensitive `SOURCES:` literal followed by a nonempty tail lying
entirely in the class `[0-9,\s]` (a leading newline run only moves a match
start to an earlier suffix, so plain suffixes cover all match positions).
On such a text the end-anchored pattern cannot match anywhere. -/
def noTailAfterSources (s : List Char) : Bool :=
  (List.range (s.length + 1)).all fun i =>
    !(startsWithSourcesCI (s.drop i) &&
      !((s.drop i).drop 8).isEmpty &&
      ((s.drop i).drop 8).all isClassChar)

/-! ## Concrete sample data used by several claims -/

/-- A one-chunk sample document sitting in the ingestion inbox. -/
def demoDoc : Document :=
  { md5 := "ABC", folder := generateEmbeddingsFolder, stem := "doc", ext := ".txt",
    loadErr := none, chunks := ["hello"], pageMetas := [⟨1, "h"⟩] }

/-- Vector store with all three collections empty. -/
def emptySt : StoreState := { cloudMain := [], cloudDocker := [], dockerLocal := [], nextId := 0 }

/-- Filesystem holding only the sample document in the inbox folder. -/
def inboxFs : FS := { files := [(generateEmbeddingsFolder, "doc.txt")] }

/-- Helper: `store_embeddings_docker` never touches the main cloud
collection. -/
lemma store_docker_preserves_cloudMain (env : Env) (st : StoreState) (vecs : List Vec)
    (texts : List String) (metas : List ChunkMeta) (md5 : String) :
    (store_embeddings_docker env st vecs texts metas md5).st.cloudMain = st.cloudMain := by
  unfold store_embeddings_docker
  by_cases hdup : (!md5.isEmpty && check_document_exists env st md5 CloudCollection.docker) = true
  · rw [if_pos hdup]
  · rw [if_neg hdup]
    simp only
    by_cases h1 : (env.dockerAvailable && !env.dockerUpsertFails) = true
    · rw [if_pos h1]
      by_cases h2 : (!env.cloudDockerUpsertFails) = true
      · rw [if_pos h2]
        simp [mkPoints]
      · rw [if_neg h2]
        simp [mkPoints]
    · rw [if_neg h1]
      by_cases h2 : (!env.cloudDockerUpsertFails) = true
      · rw [if_pos h2]
        simp [mkPoints]
      · rw [if_neg h2]
        simp [mkPoints]

/-! ## Claim theorems -/

/-- Environment for the C1 counterexample: the Gemini embedder raises, the
local docker upsert succeeds, but the cloud replica upsert fails — so the
only copy of the document ends up in the local docker collection, which the
cloud-client existence checks cannot see. -/
def c1BadEnv : Env :=
  { scrollMainFails := false, scrollDockerFails := false, dockerAvailable := true,
    dockerUpsertFails := false, cloudMainUpsertFails := false, cloudDockerUpsertFails := true,
    geminiEmbed := fun _ => .error "gerr",
    localEmbed := fun ts => .ok (ts.map fun _ => [(1 : ℚ)]),
    moveFails := false }

/-- First ingestion run of the C1 counterexample. -/
def c1Run1 : IngestResult := ingest_document c1BadEnv emptySt inboxFs demoDoc

/-- Second ingestion run of the C1 counterexample: identical bytes,
resubmitted to the inbox. -/
def c1Run2 : IngestResult :=
  ingest_document c1BadEnv c1Run1.st
    ⟨(generateEmbeddingsFolder, "doc.txt") :: c1Run1.fs.files⟩ demoDoc

set_option maxRecDepth 10000 in
/-- C1 counterexample: a first `ingest_document` call that returns a
committed outcome (`success = true`, docker-only commit backed solely by the
local docker write because the cloud replica failed) after which immediately
re-running `ingest_document` on the same bytes does NOT return the
rejected-duplicate outcome — it commits again and doubles the docker-tier
point count, because both existence checks go through the cloud client and
see nothing. -/
theorem idempotent_ingestion_counterexample :
    c1Run1.success = true ∧ c1Run1.st.dockerLocal.length = 1 ∧
    c1Run2.success = true ∧
    c1Run2.message = "partial Success: ingested to docker only (cloud failed: gerr)" ∧
    c1Run2.st.dockerLocal.length = 2 := by decide

/-- C1 amended: if the first `ingest_document` call returns a committed
outcome AND that commit is visible to the cloud client (the fingerprint
landed in the main cloud collection or in the cloud replica of the docker
collection), then an immediate re-run whose existence checks do not
themselves raise returns `success = false` with one of the three
rejected-duplicate messages and leaves the vector store untouched (point
counts after both calls equal the counts after the first call alone). -/
theorem idempotent_ingestion_amended (env1 env2 : Env) (st : StoreState)
    (fs fs2 : FS) (doc : Document)
    (_h1 : (ingest_document env1 st fs doc).success = true)
    (hvis : scrollHasMd5 (ingest_document env1 st fs doc).st.cloudMain doc.md5 = true ∨
            scrollHasMd5 (ingest_document env1 st fs doc).st.cloudDocker doc.md5 = true)
    (hm : env2.scrollMainFails = false) (hd : env2.scrollDockerFails = false) :
    (ingest_document env2 (ingest_document env1 st fs doc).st fs2 doc).success = false ∧
    ((ingest_document env2 (ingest_document env1 st fs doc).st fs2 doc).message =
       "duplicate: document already exists in both cloud and docker storage" ∨
     (ingest_document env2 (ingest_document env1 st fs doc).st fs2 doc).message =
       "duplicate: document already exists in cloud storage" ∨
     (ingest_document env2 (ingest_document env1 st fs doc).st fs2 doc).message =
       "duplicate: document already exists in docker storage") ∧
    (ingest_document env2 (ingest_document env1 st fs doc).st fs2 doc).st =
      (ingest_document env1 st fs doc).st := by
  generalize (ingest_document env1 st fs doc).st = st1 at hvis ⊢
  have hc1 : check_document_exists env2 st1 doc.md5 CloudCollection.main =
      scrollHasMd5 st1.cloudMain doc.md5 := by
    simp [check_document_exists, Env.scrollFails, hm, StoreState.cloudColl]
  have hc2 : check_document_exists env2 st1 doc.md5 CloudCollection.docker =
      scrollHasMd5 st1.cloudDocker doc.md5 := by
    simp [check_document_exists, Env.scrollFails, hd, StoreState.cloudColl]
  by_cases hb1 : scrollHasMd5 st1.cloudMain doc.md5 = true
  · by_cases hb2 : scrollHasMd5 st1.cloudDocker doc.md5 = true
    · simp [ingest_document, hc1, hc2, hb1, hb2]
    · simp [ingest_document, hc1, hc2, hb1, Bool.eq_false_iff.mpr hb2]
  · rcases hvis with hv | hv
    · exact absurd hv hb1
    · simp [ingest_document, hc1, hc2, hv, Bool.eq_false_iff.mpr hb1]

/-- Fully healthy environment used by the C1 amended witness. -/
def c1OkEnv : Env :=
  { scrollMainFails := false, scrollDockerFails := false, dockerAvailable := true,
    dockerUpsertFails := false, cloudMainUpsertFails := false, cloudDockerUpsertFails := false,
    geminiEmbed := fun ts => .ok (ts.map fun _ => [(1 : ℚ)]),
    localEmbed := fun ts => .ok (ts.map fun _ => [(2 : ℚ)]),
    moveFails := false }

/-- First run of the C1 amended witness scenario. -/
def c1OkRun1 : IngestResult := ingest_document c1OkEnv emptySt inboxFs demoDoc

set_option maxRecDepth 10000 in
/-- Witness for `idempotent_ingestion_amended`: after a fully successful
first ingestion of the sample document, the immediate re-run is rejected as
a duplicate with the store unchanged. -/
theorem idempotent_ingestion_amended_witness :
    (ingest_document c1OkEnv c1OkRun1.st
      ⟨(generateEmbeddingsFolder, "doc.txt") :: c1OkRun1.fs.files⟩ demoDoc).success = false ∧
    (ingest_document c1OkEnv c1OkRun1.st
      ⟨(generateEmbeddingsFolder, "doc.txt") :: c1OkRun1.fs.files⟩ demoDoc).st =
      c1OkRun1.st := by
  have h := idempotent_ingestion_amended c1OkEnv c1OkEnv emptySt inboxFs
    ⟨(generateEmbeddingsFolder, "doc.txt") :: c1OkRun1.fs.files⟩ demoDoc
    (by decide) (Or.inl (by decide)) rfl rfl
  exact ⟨h.1, h.2.2⟩

/-- C2: for a fixed search-result list of k=4 hits, declared indices {2,4}
yield exactly the attributions of hit 2 and hit 4 (1-based; hits [1] and [3]
0-based) in that order; the single out-of-range index {9} yields the empty
list (the no-valid-indices fallback does not apply, because the declared
list is nonempty); and for any nonempty declared index list only the first
3 declared indices can produce attributions, so at most 3 result. -/
theorem attribution_index_stability :
    (∀ a b c d : SearchResult,
      extractSources [a, b, c, d] [2, 4] = [mkSource b, mkSource d]) ∧
    (∀ a b c d : SearchResult, extractSources [a, b, c, d] [9] = []) ∧
    (∀ (hits : List SearchResult) (idxs : List Nat), idxs ≠ [] →
      extractSources hits idxs = extractSources hits (idxs.take 3) ∧
      (extractSources hits idxs).length ≤ 3) := by
  refine ⟨fun a b c d => rfl, fun a b c d => rfl, fun hits idxs h => ?_⟩
  have hne : idxs.isEmpty = false := List.isEmpty_eq_false.mpr h
  have hne3 : (idxs.take 3).isEmpty = false := by
    rw [List.isEmpty_eq_false] at hne ⊢
    intro hcon
    rcases idxs with _ | ⟨x, xs⟩
    · exact hne rfl
    · simp at hcon
  constructor
  · simp [extractSources, hne, hne3, List.take_take]
  · simp only [extractSources, hne, Bool.false_eq_true, if_false]
    calc ((idxs.take 3).filterMap _).length
        ≤ (idxs.take 3).length := List.length_filterMap_le _ _
      _ ≤ 3 := by rw [List.length_take]; exact min_le_left _ _

/-- Witness for the third part of `attribution_index_stability` at concrete
input: the declared list `[1, 2, 3, 4]` is nonempty and produces at most 3
attributions. -/
theorem attribution_index_stability_witness :
    ([1, 2, 3, 4] : List Nat) ≠ [] ∧
    (extractSources [] [1, 2, 3, 4]).length ≤ 3 := by
  have h := attribution_index_stability.2.2 ([] : List SearchResult) [1, 2, 3, 4]
    (by decide)
  exact ⟨by decide, h.2⟩

/-- C3: for every non-duplicate batch, `store_embeddings_docker` makes a
best-effort docker write (success exactly when the docker client is
available and its upsert does not raise; a raising upsert is caught, not
propagated), always additionally attempts the cloud-replica write of the
same point list, and returns `true` iff the docker write succeeded or the
cloud-replica write succeeded. -/
theorem fast_tier_replicated_write (env : Env) (st : StoreState) (vecs : List Vec)
    (texts : List String) (metas : List ChunkMeta) (md5 : String)
    (hnd : check_document_exists env st md5 CloudCollection.docker = false) :
    (store_embeddings_docker env st vecs texts metas md5).ok =
      ((env.dockerAvailable && !env.dockerUpsertFails) || !env.cloudDockerUpsertFails) ∧
    (store_embeddings_docker env st vecs texts metas md5).dockerWritten =
      (if env.dockerAvailable && !env.dockerUpsertFails
       then some (mkPoints st vecs texts metas md5).1 else none) ∧
    (env.cloudDockerUpsertFails = false →
      (store_embeddings_docker env st vecs texts metas md5).st.cloudDocker =
        st.cloudDocker ++ (mkPoints st vecs texts metas md5).1 ∧
      (store_embeddings_docker env st vecs texts metas md5).replicaWritten =
        some (mkPoints st vecs texts metas md5).1) := by
  unfold store_embeddings_docker
  rw [hnd]
  simp only [Bool.and_false, Bool.false_eq_true, if_false]
  refine ⟨by simp, by simp, fun hrep => ?_⟩
  rw [hrep]
  simp only [Bool.not_false, if_true]
  constructor
  · by_cases hdok : (env.dockerAvailable && !env.dockerUpsertFails) = true
    · rw [if_pos hdok]
      simp [mkPoints]
    · rw [if_neg hdok]
      simp [mkPoints]
  · simp

/-- Witness for `fast_tier_replicated_write`: a concrete non-duplicate
batch in an all-healthy environment, where the call succeeds and replica
contents grow by the constructed point list. -/
theorem fast_tier_replicated_write_witness :
    check_document_exists
      { scrollMainFails := false, scrollDockerFails := false, dockerAvailable := true,
        dockerUpsertFails := false, cloudMainUpsertFails := false,
        cloudDockerUpsertFails := false,
        geminiEmbed := fun _ => .ok [], localEmbed := fun _ => .ok [],
        moveFails := false }
      { cloudMain := [], cloudDocker := [], dockerLocal := [], nextId := 0 }
      "A1" CloudCollection.docker = false ∧
    (store_embeddings_docker
      { scrollMainFails := false, scrollDockerFails := false, dockerAvailable := true,
        dockerUpsertFails := false, cloudMainUpsertFails := false,
        cloudDockerUpsertFails := false,
        geminiEmbed := fun _ => .ok [], localEmbed := fun _ => .ok [],
        moveFails := false }
      { cloudMain := [], cloudDocker := [], dockerLocal := [], nextId := 0 }
      [[(1 : ℚ)]] ["t"] [emptyMeta] "A1").ok = true := by
  refine ⟨by decide, ?_⟩
  have h := fast_tier_replicated_write
    { scrollMainFails := false, scrollDockerFails := false, dockerAvailable := true,
      dockerUpsertFails := false, cloudMainUpsertFails := false,
      cloudDockerUpsertFails := false,
      geminiEmbed := fun _ => .ok [], localEmbed := fun _ => .ok [],
      moveFails := false }
    { cloudMain := [], cloudDocker := [], dockerLocal := [], nextId := 0 }
    [[(1 : ℚ)]] ["t"] [emptyMeta] "A1" (by decide)
  rw [h.1]
  decide

/-- C4 counterexample: the local (low-capacity) variant does NOT reject an
empty batch with an error — `LocalEmbedding.embed_documents` on `[]` simply
returns an empty embedding list (successfully) with no network call, even
when both endpoints would fail every request. -/
theorem empty_batch_local_counterexample :
    (localEmbedDocuments (fun _ => .error "lm down") (fun _ => .error "hf down")
        false []).1 = Except.ok [] ∧
    (localEmbedDocuments (fun _ => .error "lm down") (fun _ => .error "hf down")
        false []).2.2 = [] := by
  exact ⟨rfl, rfl⟩

/-- C4 amended: the Gemini (high-capacity) variant rejects an empty batch
immediately with `ValueError("texts list cannot be empty")` and performs no
network call; the local (low-capacity) variant also performs no network call
on an empty batch, but returns an empty embedding list successfully rather
than rejecting with an error. -/
theorem empty_batch_behaviour :
    (∀ (net : Nat → List String → Except String (List Vec)) (k2 : Bool),
      geminiEmbedDocuments net k2 [] = (.error "texts list cannot be empty", [])) ∧
    (∀ (lm hf : String → Except String Vec) (fb : Bool),
      localEmbedDocuments lm hf fb [] = (.ok [], fb, [])) :=
  ⟨fun _ _ => rfl, fun _ _ _ => rfl⟩

/-- C8: `_normalize_embedding` divides each component by the Euclidean norm
exactly when the norm is strictly positive and returns the vector unchanged
otherwise; the norm is nonnegative, so the untaken branch corresponds
exactly to norm zero — the division is never performed with a zero
divisor. -/
theorem guarded_unit_normalization (v : List ℝ) :
    (0 < normL2 v → normalizeEmbedding v = v.map fun x => x / normL2 v) ∧
    (¬ 0 < normL2 v → normL2 v = 0 ∧ normalizeEmbedding v = v) := by
  constructor
  · intro hpos
    unfold normalizeEmbedding
    rw [if_pos hpos]
  · intro hneg
    have hz : normL2 v = 0 :=
      le_antisymm (not_lt.mp hneg) (Real.sqrt_nonneg _)
    refine ⟨hz, ?_⟩
    unfold normalizeEmbedding
    rw [if_neg hneg]

/-- Witness for `guarded_unit_normalization`: the vector `[3, 4]` has norm
`√25 = 5 > 0` and is normalised componentwise; the zero vector `[0]` has
norm 0 and is returned unchanged. -/
theorem guarded_unit_normalization_witness :
    (0 < normL2 [3, 4] ∧
      normalizeEmbedding [3, 4] = [3 / normL2 [3, 4], 4 / normL2 [3, 4]]) ∧
    (¬ 0 < normL2 [0] ∧ normalizeEmbedding [0] = [0]) := by
  have hsum : (([3, 4] : List ℝ).map fun x => x * x).sum = 25 := by norm_num
  have hpos : 0 < normL2 [3, 4] := by
    unfold normL2
    rw [hsum]
    exact Real.sqrt_pos.mpr (by norm_num)
  have hz : normL2 [0] = 0 := by
    unfold normL2
    norm_num
  have hnot : ¬ 0 < normL2 [0] := by rw [hz]; exact lt_irrefl 0
  refine ⟨⟨hpos, ?_⟩, hnot, ((guarded_unit_normalization [0]).2 hnot).2⟩
  have h := (guarded_unit_normalization [3, 4]).1 hpos
  simpa using h

/-- C10: inside `store_embeddings_docker` the point list is constructed once
before either write, so whenever both the docker-tier write and the
cloud-replica write happen, they receive the identical point list — same
ids, same vectors, same payloads. -/
theorem replicated_point_single_identity (env : Env) (st : StoreState)
    (vecs : List Vec) (texts : List String) (metas : List ChunkMeta)
    (md5 : String) (ps qs : List Point)
    (hd : (store_embeddings_docker env st vecs texts metas md5).dockerWritten = some ps)
    (hr : (store_embeddings_docker env st vecs texts metas md5).replicaWritten = some qs) :
    ps = qs := by
  unfold store_embeddings_docker at hd hr
  by_cases hdup : (!md5.isEmpty && check_document_exists env st md5 CloudCollection.docker) = true
  · rw [if_pos hdup] at hd
    exact absurd hd (by simp)
  · rw [if_neg hdup] at hd hr
    simp only at hd hr
    by_cases h1 : (env.dockerAvailable && !env.dockerUpsertFails) = true
    · rw [if_pos h1] at hd
      by_cases h2 : (!env.cloudDockerUpsertFails) = true
      · rw [if_pos h2] at hr
        rw [← Option.some_inj.mp hd, ← Option.some_inj.mp hr]
      · rw [if_neg h2] at hr
        exact absurd hr (by simp)
    · rw [if_neg h1] at hd
      exact absurd hd (by simp)

/-- Witness for `replicated_point_single_identity`: an environment where
both writes happen, with the shared point list made explicit. -/
theorem replicated_point_single_identity_witness :
    (store_embeddings_docker
      { scrollMainFails := false, scrollDockerFails := false, dockerAvailable := true,
        dockerUpsertFails := false, cloudMainUpsertFails := false,
        cloudDockerUpsertFails := false,
        geminiEmbed := fun _ => .ok [], localEmbed := fun _ => .ok [],
        moveFails := false }
      { cloudMain := [], cloudDocker := [], dockerLocal := [], nextId := 5 }
      [[(1 : ℚ)]] ["t"] [emptyMeta] "B2").dockerWritten =
      some [{ id := 5, vector := [(1 : ℚ)],
              payload := { text := "t", md5 := "B2", meta := emptyMeta } }] ∧
    (store_embeddings_docker
      { scrollMainFails := false, scrollDockerFails := false, dockerAvailable := true,
        dockerUpsertFails := false, cloudMainUpsertFails := false,
        cloudDockerUpsertFails := false,
        geminiEmbed := fun _ => .ok [], localEmbed := fun _ => .ok [],
        moveFails := false }
      { cloudMain := [], cloudDocker := [], dockerLocal := [], nextId := 5 }
      [[(1 : ℚ)]] ["t"] [emptyMeta] "B2").replicaWritten =
      some [{ id := 5, vector := [(1 : ℚ)],
              payload := { text := "t", md5 := "B2", meta := emptyMeta } }] ∧
    ([{ id := 5, vector := [(1 : ℚ)],
        payload := { text := "t", md5 := "B2", meta := emptyMeta } }] : List Point) =
      [{ id := 5, vector := [(1 : ℚ)],
         payload := { text := "t", md5 := "B2", meta := emptyMeta } }] := by
  refine ⟨by decide, by decide, ?_⟩
  exact replicated_point_single_identity
    { scrollMainFails := false, scrollDockerFails := false, dockerAvailable := true,
      dockerUpsertFails := false, cloudMainUpsertFails := false,
      cloudDockerUpsertFails := false,
      geminiEmbed := fun _ => .ok [], localEmbed := fun _ => .ok [],
      moveFails := false }
    { cloudMain := [], cloudDocker := [], dockerLocal := [], nextId := 5 }
    [[(1 : ℚ)]] ["t"] [emptyMeta] "B2" _ _ (by decide) (by decide)

/-- Environment for C6: both embedding attempts raise (`gerr` on the Gemini
side, `derr` on the local side); everything else is healthy. -/
def c6BadEnv : Env :=
  { scrollMainFails := false, scrollDockerFails := false, dockerAvailable := true,
    dockerUpsertFails := false, cloudMainUpsertFails := false, cloudDockerUpsertFails := false,
    geminiEmbed := fun _ => .error "gerr",
    localEmbed := fun _ => .error "derr",
    moveFails := false }

set_option maxRecDepth 10000 in
/-- C6 counterexample: when both storage attempts fail, the outcome is
`failed` with both error messages in the reason — but the source document
does NOT keep its name: `_move_file` targets the document's own folder
(`generate_embeddings`), finds the destination path occupied by the source
itself, and renames the file to `doc_1.txt`.  The claim's "never … renamed"
is violated. -/
theorem failed_ingest_frame_counterexample :
    (ingest_document c6BadEnv emptySt inboxFs demoDoc).success = false ∧
    (ingest_document c6BadEnv emptySt inboxFs demoDoc).message =
      "failed: cloud error: gerr; docker error: derr" ∧
    (ingest_document c6BadEnv emptySt inboxFs demoDoc).fs.files =
      [(generateEmbeddingsFolder, "doc_1.txt")] := by decide

/-- C6 amended: when both the cloud attempt and the docker attempt raise,
the outcome is `failed` with both underlying error messages (classified and
truncated to 100 characters each) concatenated into the reason, nothing is
written to the vector store, and the document is moved (by `_move_file`)
into the generate-embeddings folder — it remains on disk there, never
deleted, though it may be renamed with a numeric suffix when its own name
already occupies the destination path. -/
theorem failed_ingest_frame_amended (env : Env) (st : StoreState) (fs : FS)
    (doc : Document) (e1 e2 : String)
    (hc1 : check_document_exists env st doc.md5 CloudCollection.main = false)
    (hc2 : check_document_exists env st doc.md5 CloudCollection.docker = false)
    (hload : doc.loadErr = none)
    (hch : doc.chunks.isEmpty = false)
    (hge : env.geminiEmbed doc.chunks = .error e1)
    (hle : env.localEmbed doc.chunks = .error e2)
    (hmv : env.moveFails = false)
    (hsrc : fileExists fs doc.folder (doc.stem ++ doc.ext) = true) :
    (ingest_document env st fs doc).success = false ∧
    (ingest_document env st fs doc).message =
      "failed: " ++ String.intercalate "; " [classifyCloudError e1, classifyDockerError e2] ∧
    (ingest_document env st fs doc).fs =
      moveFile env fs doc.folder doc.stem doc.ext generateEmbeddingsFolder ∧
    (∃ nm, (generateEmbeddingsFolder, nm) ∈ (ingest_document env st fs doc).fs.files) ∧
    (ingest_document env st fs doc).st = st := by
  have hmove : ∃ nm, (generateEmbeddingsFolder, nm) ∈
      (moveFile env fs doc.folder doc.stem doc.ext generateEmbeddingsFolder).files := by
    unfold moveFile
    simp only [hmv, hsrc, Bool.false_or, Bool.not_true, Bool.false_eq_true, if_false]
    exact ⟨_, List.mem_cons_self _ _⟩
  simp only [ingest_document, hc1, hc2, Bool.or_self, Bool.false_eq_true, if_false,
    hload, hch, hge, hle]
  refine ⟨rfl, rfl, rfl, ?_, rfl⟩
  simpa [determineDestination] using hmove

set_option maxRecDepth 10000 in
/-- Witness for `failed_ingest_frame_amended` on the sample scenario: both
attempts raise, the run reports the concatenated failure reason, and the
document is still present in the generate-embeddings folder. -/
theorem failed_ingest_frame_amended_witness :
    (ingest_document c6BadEnv emptySt inboxFs demoDoc).st = emptySt ∧
    (∃ nm, (generateEmbeddingsFolder, nm) ∈
      (ingest_document c6BadEnv emptySt inboxFs demoDoc).fs.files) := by
  have h := failed_ingest_frame_amended c6BadEnv emptySt inboxFs demoDoc "gerr" "derr"
    (by decide) (by decide) rfl rfl rfl rfl rfl (by decide)
  exact ⟨h.2.2.2.2, h.2.2.2.1⟩

/-- C9 (implicit): any exception inside `check_document_exists` is caught
and turned into `False` — a transport failure during the existence check is
indistinguishable from "document absent".  Consequently, when both scroll
calls raise during `ingest_document`, a document whose fingerprint is
already stored in the main cloud collection is re-embedded and re-written
as if it were new: the run reports success and appends a fresh point list
to the cloud collection. -/
theorem existence_check_swallows_errors (vecs : List Vec) :
    (∀ (env : Env) (st : StoreState) (md5 : String) (col : CloudCollection),
      env.scrollFails col = true → check_document_exists env st md5 col = false) ∧
    (∀ (env : Env) (st : StoreState) (fs : FS) (doc : Document),
      env.scrollMainFails = true → env.scrollDockerFails = true →
      doc.loadErr = none → doc.chunks.isEmpty = false →
      env.geminiEmbed doc.chunks = .ok vecs →
      env.cloudMainUpsertFails = false →
      scrollHasMd5 st.cloudMain doc.md5 = true →
      (ingest_document env st fs doc).success = true ∧
      (ingest_document env st fs doc).st.cloudMain =
        st.cloudMain ++ (mkPoints st vecs doc.chunks (buildChunkMetadata doc) doc.md5).1) := by
  have hchk : ∀ (env : Env) (st : StoreState) (md5 : String) (col : CloudCollection),
      env.scrollFails col = true → check_document_exists env st md5 col = false := by
    intro env st md5 col h
    unfold check_document_exists
    rw [h]
    rfl
  refine ⟨hchk, fun env st fs doc hm hd hload hch hge hcu _hpresent => ?_⟩
  have hc1 : check_document_exists env st doc.md5 CloudCollection.main = false :=
    hchk env st doc.md5 .main (by simp [Env.scrollFails, hm])
  have hc2 : check_document_exists env st doc.md5 CloudCollection.docker = false :=
    hchk env st doc.md5 .docker (by simp [Env.scrollFails, hd])
  have hstore : store_embeddings_cloud env st vecs doc.chunks (buildChunkMetadata doc) doc.md5 =
      (true, { (mkPoints st vecs doc.chunks (buildChunkMetadata doc) doc.md5).2 with
               cloudMain := (mkPoints st vecs doc.chunks (buildChunkMetadata doc) doc.md5).2.cloudMain ++
                 (mkPoints st vecs doc.chunks (buildChunkMetadata doc) doc.md5).1 }) := by
    unfold store_embeddings_cloud
    simp only [hc1, Bool.and_false, Bool.false_eq_true, if_false, hcu]
  simp only [ingest_document, hc1, hc2, Bool.or_self, Bool.false_eq_true, if_false,
    hload, hch, hge, hstore]
  rcases hloc : env.localEmbed doc.chunks with e | vecs2
  · simp [mkPoints]
  · refine ⟨?_, ?_⟩ <;>
    · split <;> simp [store_docker_preserves_cloudMain, mkPoints]

/-- Environment for the C9 witness: both existence-check scrolls raise,
everything else healthy. -/
def c9Env : Env :=
  { scrollMainFails := true, scrollDockerFails := true, dockerAvailable := true,
    dockerUpsertFails := false, cloudMainUpsertFails := false, cloudDockerUpsertFails := false,
    geminiEmbed := fun ts => .ok (ts.map fun _ => [(2 : ℚ)]),
    localEmbed := fun ts => .ok (ts.map fun _ => [(3 : ℚ)]),
    moveFails := false }

/-- Store state for the C9 witness: the sample document's fingerprint is
already present in the main cloud collection. -/
def c9St : StoreState :=
  { cloudMain := [{ id := 0, vector := [(2 : ℚ)],
                    payload := { text := "hello", md5 := "ABC", meta := emptyMeta } }]
    cloudDocker := [], dockerLocal := [], nextId := 1 }

set_option maxRecDepth 10000 in
/-- Witness for `existence_check_swallows_errors`: with failing existence
checks, ingesting the already-stored sample document succeeds and the main
cloud collection grows from 1 point to 2. -/
theorem existence_check_swallows_errors_witness :
    (ingest_document c9Env c9St inboxFs demoDoc).success = true ∧
    (ingest_document c9Env c9St inboxFs demoDoc).st.cloudMain.length = 2 := by
  have h := (existence_check_swallows_errors [[(2 : ℚ)]]).2 c9Env c9St inboxFs demoDoc
    rfl rfl rfl rfl rfl rfl (by decide)
  refine ⟨h.1, ?_⟩
  rw [h.2]
  decide

/-- Helper: the batching loop on an empty remainder produces no calls. -/
lemma gemLoop_nil (net : Nat → List String → Except String (List Vec)) (k2 : Bool)
    (fuel bn : Nat) : gemLoop net k2 fuel bn [] = (.ok [], []) := by
  cases fuel with
  | zero => rfl
  | succ n => simp [gemLoop]

/-- Helper: one unfolding of the batching loop under an always-succeeding
network, with two keys configured. -/
lemma gemLoop_step (g : Nat → List String → List Vec) (fuel bn : Nat)
    (rem : List String) (hrem : rem.isEmpty = false) :
    gemLoop (fun k b => Except.ok (g k b)) true (fuel + 1) bn rem =
      (((gemLoop (fun k b => Except.ok (g k b)) true fuel (bn + 1) (rem.drop 49)).1).map
        (fun tail => g (if bn % 2 == 0 then 2 else 1) (rem.take 49) ++ tail),
       GemEvent.call bn (if bn % 2 == 0 then 2 else 1) (rem.take 49).length ::
         ((if !(rem.drop 49).isEmpty && (bn % 2 == 0) then [GemEvent.wait 60] else []) ++
          (gemLoop (fun k b => Except.ok (g k b)) true fuel (bn + 1) (rem.drop 49)).2)) := by
  simp [gemLoop, hrem]

/-- C5: with two configured credentials and an always-succeeding network,
embedding any batch of 150 texts issues exactly 4 sub-batches of sizes
49, 49, 49, 3, in input order; the sub-batches alternate round-robin between
key 1 and key 2 (batches 1 and 3 on key 1, batches 2 and 4 on key 2); and
exactly one 60-second cooldown is inserted — after batch 2, i.e. before the
last sub-batch completes — so at least one cooldown wait occurs. -/
theorem rate_limit_batching (g : Nat → List String → List Vec) (texts : List String)
    (h : texts.length = 150) :
    (geminiEmbedDocuments (fun k b => Except.ok (g k b)) true texts).2 =
      [GemEvent.call 1 1 49, GemEvent.call 2 2 49, GemEvent.wait 60,
       GemEvent.call 3 1 49, GemEvent.call 4 2 3] ∧
    ∃ vs, (geminiEmbedDocuments (fun k b => Except.ok (g k b)) true texts).1 =
      Except.ok vs := by
  have hne0 : texts.isEmpty = false := by
    rw [List.isEmpty_eq_false]
    intro hc; rw [hc] at h; simp at h
  have hne1 : (texts.drop 49).isEmpty = false := by
    rw [List.isEmpty_eq_false]
    intro hc; rw [List.drop_eq_nil_iff, h] at hc; omega
  have hne2 : (texts.drop 98).isEmpty = false := by
    rw [List.isEmpty_eq_false]
    intro hc; rw [List.drop_eq_nil_iff, h] at hc; omega
  have hne3 : (texts.drop 147).isEmpty = false := by
    rw [List.isEmpty_eq_false]
    intro hc; rw [List.drop_eq_nil_iff, h] at hc; omega
  have hnil : texts.drop 196 = [] := List.drop_eq_nil_of_le (by omega)
  have hl0 : (texts.take 49).length = 49 := by rw [List.length_take, h]; decide
  have hl1 : ((texts.drop 49).take 49).length = 49 := by
    rw [List.length_take, List.length_drop, h]; decide
  have hl2 : ((texts.drop 98).take 49).length = 49 := by
    rw [List.length_take, List.length_drop, h]; decide
  have hl3 : ((texts.drop 147).take 49).length = 3 := by
    rw [List.length_take, List.length_drop, h]; decide
  have hchain : geminiEmbedDocuments (fun k b => Except.ok (g k b)) true texts =
      (Except.ok (g 1 (texts.take 49) ++ (g 2 ((texts.drop 49).take 49) ++
         (g 1 ((texts.drop 98).take 49) ++ (g 2 ((texts.drop 147).take 49) ++ [])))),
       [GemEvent.call 1 1 49, GemEvent.call 2 2 49, GemEvent.wait 60,
        GemEvent.call 3 1 49, GemEvent.call 4 2 3]) := by
    unfold geminiEmbedDocuments
    rw [if_neg (by rw [hne0]; exact Bool.false_ne_true), h]
    rw [show (150 : Nat) = 149 + 1 from rfl, gemLoop_step g 149 1 texts hne0]
    rw [show (149 : Nat) = 148 + 1 from rfl, gemLoop_step g 148 2 (texts.drop 49) hne1]
    rw [show (148 : Nat) = 147 + 1 from rfl]
    rw [List.drop_drop]
    rw [show (49 + 49 : Nat) = 98 from rfl]
    rw [gemLoop_step g 147 3 (texts.drop 98) hne2]
    rw [show (147 : Nat) = 146 + 1 from rfl]
    rw [List.drop_drop]
    rw [show (98 + 49 : Nat) = 147 from rfl]
    rw [gemLoop_step g 146 4 (texts.drop 147) hne3]
    rw [List.drop_drop]
    rw [show (147 + 49 : Nat) = 196 from rfl]
    rw [hnil, gemLoop_nil]
    simp [hne1, hne2, hne3, hl0, hl1, hl2, hl3, Except.map]
  rw [hchain]
  exact ⟨rfl, _, rfl⟩

/-- Witness for `rate_limit_batching`: 150 copies of `"x"` under a network
that returns empty vector lists produce exactly the predicted trace. -/
theorem rate_limit_batching_witness :
    (List.replicate 150 "x").length = 150 ∧
    (geminiEmbedDocuments (fun _ _ => Except.ok ([] : List Vec)) true
        (List.replicate 150 "x")).2 =
      [GemEvent.call 1 1 49, GemEvent.call 2 2 49, GemEvent.wait 60,
       GemEvent.call 3 1 49, GemEvent.call 4 2 3] := by
  refine ⟨by simp, ?_⟩
  exact (rate_limit_batching (fun _ _ => []) (List.replicate 150 "x") (by simp)).1

/-! ### Trailer-removal lemmas (C7) -/

/-- Helper: the tail pattern cannot match when some non-class character sits
at least two positions before the end of the candidate text. -/
lemma sourcesTailMatch_eq_false_of_blocked (rest : List Char) (i : Nat) (ch : Char)
    (hch : rest[i]? = some ch) (hcl : isClassChar ch = false)
    (hi : i + 2 ≤ rest.length) : sourcesTailMatch rest = false := by
  unfold sourcesTailMatch
  rw [List.any_eq_false]
  intro j hj
  rw [List.mem_range] at hj
  intro hcon
  rw [Bool.and_assoc, Bool.and_eq_true] at hcon
  obtain ⟨hj1, hcon⟩ := hcon
  rw [Bool.and_eq_true] at hcon
  obtain ⟨hall, hdollar⟩ := hcon
  by_cases hij : i < j
  · have hgt : (rest.take j)[i]? = some ch := by
      rw [List.getElem?_take_of_lt hij]
      exact hch
    obtain ⟨hlt, hget⟩ := List.getElem?_eq_some.mp hgt
    have hmem : ch ∈ rest.take j := hget ▸ List.getElem_mem hlt
    have := List.all_eq_true.mp hall ch hmem
    rw [hcl] at this
    exact Bool.false_ne_true this
  · push_neg at hij
    unfold dollarAt at hdollar
    rw [Bool.or_eq_true, beq_iff_eq] at hdollar
    rcases hdollar with hd | hd
    · omega
    · rw [Bool.and_eq_true, beq_iff_eq] at hd
      omega

/-- Helper: the tail pattern cannot match when the candidate text ends in a
non-class character (in particular not in a newline). -/
lemma sourcesTailMatch_eq_false_of_last (rest : List Char) (c : Char)
    (hlast : rest.getLast? = some c) (hcl : isClassChar c = false) :
    sourcesTailMatch rest = false := by
  have hne : rest ≠ [] := by
    intro hc; rw [hc] at hlast; exact Option.noConfusion hlast
  unfold sourcesTailMatch
  rw [List.any_eq_false]
  intro j hj
  rw [List.mem_range] at hj
  intro hcon
  rw [Bool.and_assoc, Bool.and_eq_true] at hcon
  obtain ⟨hj1, hcon⟩ := hcon
  rw [Bool.and_eq_true] at hcon
  obtain ⟨hall, hdollar⟩ := hcon
  unfold dollarAt at hdollar
  rw [Bool.or_eq_true, beq_iff_eq] at hdollar
  rcases hdollar with hd | hd
  · subst hd
    have htake : rest.take rest.length = rest := List.take_length rest
    rw [htake] at hall
    have hmem : c ∈ rest := by
      rw [List.getLast?_eq_getLast rest hne] at hlast
      exact (Option.some_inj.mp hlast) ▸ List.getLast_mem hne
    have := List.all_eq_true.mp hall c hmem
    rw [hcl] at this
    exact Bool.false_ne_true this
  · rw [Bool.and_eq_true, beq_iff_eq] at hd
    obtain ⟨hd1, hd2⟩ := hd
    rw [List.getLast?_eq_getElem?] at hlast
    have hj2 : j = rest.length - 1 := by omega
    rw [hj2] at hd2
    rw [hlast] at hd2
    rw [beq_iff_eq] at hd2
    have hcn : c = '\n' := Option.some_inj.mp hd2
    rw [hcn] at hcl
    exact Bool.noConfusion hcl

/-- Helper: the empty candidate never matches the tail pattern. -/
lemma sourcesTailMatch_nil : sourcesTailMatch [] = false := rfl

/-- Helper: the tail pattern cannot match when the candidate text contains
any non-class character at all (a match's class run must reach the end of
the text, or stop one short of a final newline — and a newline is itself a
class character). -/
lemma sourcesTailMatch_eq_false_of_not_all (rest : List Char)
    (h : rest.all isClassChar = false) : sourcesTailMatch rest = false := by
  rw [List.all_eq_false] at h
  obtain ⟨ch, hmem, hncl⟩ := h
  rw [Bool.not_eq_true] at hncl
  obtain ⟨i, hi, hget⟩ := List.getElem_of_mem hmem
  have hgetop : rest[i]? = some ch := List.getElem?_eq_some.mpr ⟨hi, hget⟩
  by_cases hcase : i + 2 ≤ rest.length
  · exact sourcesTailMatch_eq_false_of_blocked rest i ch hgetop hncl hcase
  · have hilast : i = rest.length - 1 := by omega
    have hlast : rest.getLast? = some ch := by
      rw [List.getLast?_eq_getElem?, ← hilast]
      exact hgetop
    exact sourcesTailMatch_eq_false_of_last rest ch hlast hncl

/-- Helper: the occurrence check is preserved when peeling the first
character (the suffixes of the tail are among the suffixes of the whole). -/
lemma noTail_cons (x : Char) (t : List Char)
    (h : noTailAfterSources (x :: t) = true) : noTailAfterSources t = true := by
  unfold noTailAfterSources at h ⊢
  rw [List.all_eq_true] at h ⊢
  intro i hi
  rw [List.mem_range] at hi
  have hx := h (i + 1) (by rw [List.mem_range, List.length_cons]; omega)
  rw [List.drop_succ_cons] at hx
  exact hx

/-- Helper: the whole pattern cannot match at the start of a text on which
the occurrence check holds — the newline-skipped suffix is one of the
checked suffixes, and there the tail is empty or contains a non-class
character. -/
lemma headerMatch0_eq_false_of_noTail (cs : List Char)
    (h : noTailAfterSources cs = true) : headerMatch0 cs = false := by
  unfold headerMatch0
  simp only
  by_cases hstart : startsWithSourcesCI (cs.dropWhile (fun c => c == '\n')) = true
  · rw [hstart, Bool.true_and]
    have hab := List.takeWhile_append_dropWhile (fun c => c == '\n') cs
    have hsplit : cs.dropWhile (fun c => c == '\n') =
        cs.drop (cs.takeWhile (fun c => c == '\n')).length := by
      have h1 := List.drop_left (cs.takeWhile (fun c => c == '\n'))
        (cs.dropWhile (fun c => c == '\n'))
      rw [hab] at h1
      exact h1.symm
    have hlen : (cs.takeWhile (fun c => c == '\n')).length ≤ cs.length := by
      have hsum := congrArg List.length hab
      rw [List.length_append] at hsum
      omega
    unfold noTailAfterSources at h
    rw [List.all_eq_true] at h
    have hi := h (cs.takeWhile (fun c => c == '\n')).length
      (by rw [List.mem_range]; omega)
    rw [← hsplit] at hi
    by_cases hempty : ((cs.dropWhile (fun c => c == '\n')).drop 8).isEmpty = true
    · rw [List.isEmpty_iff.mp hempty]
      exact sourcesTailMatch_nil
    · have hall : ((cs.dropWhile (fun c => c == '\n')).drop 8).all isClassChar = false := by
        simp only [hstart, Bool.eq_false_iff.mpr hempty, Bool.not_false, Bool.true_and,
          Bool.not_eq_eq_eq_not, Bool.not_true] at hi
        exact hi
      exact sourcesTailMatch_eq_false_of_not_all _ hall
  · rw [Bool.eq_false_iff.mpr hstart, Bool.false_and]

/-- Helper: the substitution is the identity on any text on which the
occurrence check holds (no position can match the end-anchored pattern). -/
lemma subSources_eq_self_of_noTail (s : List Char)
    (h : noTailAfterSources s = true) : subSources s = s := by
  induction s with
  | nil => rfl
  | cons x t ih =>
    unfold subSources
    rw [headerMatch0_eq_false_of_noTail (x :: t) h]
    simp only [Bool.false_eq_true, if_false]
    rw [ih (noTail_cons x t h)]

/-- Helper: dropping leading newlines consumes a whole newline run. -/
lemma dropWhile_replicate_newline (m : Nat) :
    (List.replicate m '\n').dropWhile (fun c => c == '\n') = [] := by
  induction m with
  | zero => rfl
  | succ n ih => rw [List.replicate_succ, List.dropWhile_cons]; simp [ih]

lemma sourcesTailMatch_of_all (w : List Char) (hw : w ≠ [])
    (hwall : w.all isClassChar = true) : sourcesTailMatch w = true := by
  unfold sourcesTailMatch
  rw [List.any_eq_true]
  refine ⟨w.length, ?_, ?_⟩
  · rw [List.mem_range]; omega
  · have h1 : 1 ≤ w.length := List.length_pos.mpr hw
    rw [List.take_length]
    unfold dollarAt
    simp [hwall, h1]

lemma headerMatch0_trailer (m : Nat) (w : List Char) (hw : w ≠ [])
    (hwall : w.all isClassChar = true) :
    headerMatch0 (List.replicate m '\n' ++ ("SOURCES:".toList ++ w)) = true := by
  unfold headerMatch0
  simp only
  have hnl : ('S' == '\n') = false := by decide
  have hdw : (List.replicate m '\n' ++ ("SOURCES:".toList ++ w)).dropWhile
      (fun c => c == '\n') = 'S' :: 'O' :: 'U' :: 'R' :: 'C' :: 'E' :: 'S' :: ':' :: w := by
    rw [List.dropWhile_append, dropWhile_replicate_newline]
    rw [show ("SOURCES:".toList) = ['S', 'O', 'U', 'R', 'C', 'E', 'S', ':'] from rfl]
    simp only [List.isEmpty_nil, if_true, List.cons_append, List.dropWhile_cons, hnl,
      Bool.false_eq_true, if_false, List.nil_append]
  rw [hdw]
  have hsw : startsWithSourcesCI ('S' :: 'O' :: 'U' :: 'R' :: 'C' :: 'E' :: 'S' :: ':' :: w) =
      true := rfl
  have hdrop : ('S' :: 'O' :: 'U' :: 'R' :: 'C' :: 'E' :: 'S' :: ':' :: w).drop 8 = w := rfl
  rw [hsw, hdrop, Bool.true_and]
  exact sourcesTailMatch_of_all w hw hwall

lemma subSources_of_match (cs : List Char) (hne : cs ≠ [])
    (hm : headerMatch0 cs = true) : subSources cs = [] := by
  cases cs with
  | nil => exact absurd rfl hne
  | cons a t =>
    unfold subSources
    rw [hm]
    simp

lemma headerMatch0_eq_false_mid (t : List Char) (m : Nat) (w : List Char)
    (ht : t ≠ []) (hlast : t.getLast? ≠ some '\n') (hw : w ≠ []) :
    headerMatch0 (t ++ (List.replicate m '\n' ++ ("SOURCES:".toList ++ w))) = false := by
  have ht2 : t.dropWhile (fun c => c == '\n') ≠ [] := by
    intro hc
    rw [List.dropWhile_eq_nil_iff] at hc
    have hmem := List.getLast_mem ht
    have hch := hc _ hmem
    rw [beq_iff_eq] at hch
    apply hlast
    rw [List.getLast?_eq_getLast t ht, hch]
  unfold headerMatch0
  simp only
  have hdw : (t ++ (List.replicate m '\n' ++ ("SOURCES:".toList ++ w))).dropWhile
      (fun c => c == '\n') =
      t.dropWhile (fun c => c == '\n') ++
        (List.replicate m '\n' ++ ("SOURCES:".toList ++ w)) := by
    rw [List.dropWhile_append, if_neg]
    rw [Bool.not_eq_true, List.isEmpty_eq_false]
    exact ht2
  rw [hdw]
  by_cases hstart : startsWithSourcesCI
      (t.dropWhile (fun c => c == '\n') ++
        (List.replicate m '\n' ++ ("SOURCES:".toList ++ w))) = true
  · rw [hstart, Bool.true_and]
    have h1 : 1 ≤ (t.dropWhile (fun c => c == '\n')).length := List.length_pos.mpr ht2
    have h2 : 1 ≤ w.length := List.length_pos.mpr hw
    have hhl : ("SOURCES:".toList).length = 8 := rfl
    apply sourcesTailMatch_eq_false_of_blocked _
      ((t.dropWhile (fun c => c == '\n')).length + m - 1) ':'
    · rw [List.getElem?_drop]
      have hidx : 8 + ((t.dropWhile (fun c => c == '\n')).length + m - 1) =
          (t.dropWhile (fun c => c == '\n')).length + (m + 7) := by omega
      rw [hidx]
      rw [List.getElem?_append_right (by omega)]
      rw [Nat.add_sub_cancel_left]
      rw [List.getElem?_append_right (by rw [List.length_replicate]; omega)]
      rw [List.length_replicate]
      have hidx2 : m + 7 - m = 7 := by omega
      rw [hidx2]
      rw [List.getElem?_append_left (by rw [hhl]; omega)]
      rfl
    · decide
    · rw [List.length_drop, List.length_append, List.length_append, List.length_append,
        List.length_replicate, hhl]
      omega
  · rw [Bool.eq_false_iff.mpr hstart, Bool.false_and]

lemma subSources_append_trailer (m : Nat) (w : List Char) (hw : w ≠ [])
    (hwall : w.all isClassChar = true) :
    ∀ (t : List Char), t.getLast? ≠ some '\n' →
      subSources (t ++ (List.replicate m '\n' ++ ("SOURCES:".toList ++ w))) = t := by
  intro t
  induction t with
  | nil =>
    intro _
    rw [List.nil_append]
    apply subSources_of_match
    · intro hc
      rcases List.append_eq_nil.mp hc with ⟨_, h2⟩
      rcases List.append_eq_nil.mp h2 with ⟨h3, _⟩
      exact absurd h3 (by decide)
    · exact headerMatch0_trailer m w hw hwall
  | cons a t ih =>
    intro hlast
    rw [List.cons_append]
    have hmatch := headerMatch0_eq_false_mid (a :: t) m w (by simp) hlast hw
    rw [List.cons_append] at hmatch
    unfold subSources
    rw [hmatch]
    simp only [Bool.false_eq_true, if_false]
    cases t with
    | nil =>
      rw [List.nil_append]
      rw [subSources_of_match _ ?hne (headerMatch0_trailer m w hw hwall)]
      case hne =>
        intro hc
        rcases List.append_eq_nil.mp hc with ⟨_, h2⟩
        rcases List.append_eq_nil.mp h2 with ⟨h3, _⟩
        exact absurd h3 (by decide)
    | cons b t2 =>
      rw [ih ?hl]
      case hl =>
        rw [List.getLast?_cons_cons] at hlast
        exact hlast

/-- C7: trailer removal is anchored to the end of the string.
Part 1: for every response of the form `body ++ newline-run ++ "SOURCES:" ++
run-of-digits/commas/whitespace` (the body not itself ending in a newline,
the declared-index run nonempty), `_remove_sources_line` strips the whole
terminal SOURCES line together with its leading newlines and trailing
whitespace/newline variants, leaving exactly the stripped body.
Part 2: every response in which each SOURCES-shaped occurrence is followed
by further non-matching content — no suffix starts with the
case-insensitive `SOURCES:` literal followed by a nonempty run lying
entirely in `[0-9,\s]` (the `noTailAfterSources` check) — is left unchanged
by the substitution (only the outer `.strip()` applies), regardless of what
character the response ends in. -/
theorem end_anchored_trailer_removal :
    (∀ (r : List Char) (m : Nat) (w : List Char),
      w ≠ [] → w.all isClassChar = true → r.getLast? ≠ some '\n' →
      removeSourcesLineL (r ++ (List.replicate m '\n' ++ ("SOURCES:".toList ++ w))) =
        stripL r) ∧
    (∀ (s : List Char), noTailAfterSources s = true →
      removeSourcesLineL s = stripL s) := by
  constructor
  · intro r m w hw hwall hlast
    unfold removeSourcesLineL
    rw [subSources_append_trailer m w hw hwall r hlast]
  · intro s h
    unfold removeSourcesLineL
    rw [subSources_eq_self_of_noTail s h]

/-- Witness for `end_anchored_trailer_removal`: a concrete terminal trailer
is stripped; a mid-text SOURCES line followed by more content is preserved
both in a response ending in a newline (a class character) and in one
ending in a digit (also a class character). -/
theorem end_anchored_trailer_removal_witness :
    noTailAfterSources "A\nSOURCES: 1\nmore text\n".toList = true ∧
    removeSourcesLineL "A\nSOURCES: 1\nmore text\n".toList =
      stripL "A\nSOURCES: 1\nmore text\n".toList ∧
    noTailAfterSources "Answer.\nSOURCES: 1, 2\nSee also item 5".toList = true ∧
    removeSourcesLineL "Answer.\nSOURCES: 1, 2\nSee also item 5".toList =
      stripL "Answer.\nSOURCES: 1, 2\nSee also item 5".toList ∧
    removeSourcesLineL ("The answer is 42.".toList ++
      (List.replicate 2 '\n' ++ ("SOURCES:".toList ++ " 1, 2".toList))) =
      stripL "The answer is 42.".toList := by
  refine ⟨by decide, ?_, by decide, ?_, ?_⟩
  · exact end_anchored_trailer_removal.2 "A\nSOURCES: 1\nmore text\n".toList (by decide)
  · exact end_anchored_trailer_removal.2
      "Answer.\nSOURCES: 1, 2\nSee also item 5".toList (by decide)
  · exact end_anchored_trailer_removal.1 "The answer is 42.".toList 2 " 1, 2".toList
      (by decide) (by decide) (by decide)

end RagSpec
